import Mathlib

/-!
Verification of the IBGPT retrieval core: collection routing, metadata
filtering, per-collection retrieval, cross-collection merging, context
formatting, and the keyword fallback classifier.

The definitions below are a shallow embedding of the Python sources:
`src/core/retrieval.py`, `src/config/collections.py`,
`src/tools/context_retriever.py`, and
`src/agents/multi_agent_system_no_tools.py`.  Distances and relevance
scores are modelled as exact rationals; document content and raw queries
as lists of characters; Python dictionaries used as string-keyed records
as association lists.  The document store (ChromaDB) is an external
collaborator: a store is modelled as a function from collection name to
either an error or a ranked list of rows, and the where-filter language
sent to the store is given its documented equality/conjunction
semantics.
-/

namespace IBGPT

section

attribute [local semireducible] Rat.sub Rat.add Rat.mul

/-- Metadata attached to a stored document or chunk: an association list
from attribute name to value, modelling the Python metadata dict. -/
abbrev Metadata := List (String × String)

/-- A row of the document store for a given query: content, metadata and
the native cosine distance reported by the store.  Rows are assumed to be
in the store's native ranking order (ascending distance). -/
structure StoredRow where
  content : List Char
  metadata : Metadata
  distance : ℚ
  deriving DecidableEq, Repr

/-- A scored document as produced by `retrieve_documents` in
src/core/retrieval.py: the row data plus the derived relevance field. -/
structure ScoredDoc where
  content : List Char
  metadata : Metadata
  distance : ℚ
  relevance : ℚ
  deriving DecidableEq, Repr

/-- The where-filter value sent to the store, as built by
`retrieve_documents` (src/core/retrieval.py lines 24-38): either a single
equality constraint or a conjunction of equality constraints. -/
inductive WhereFilter where
  | eq : String → String → WhereFilter
  | and : List (String × String) → WhereFilter
  deriving DecidableEq, Repr

/-- Conversion of a metadata filter to the store's where format,
from src/core/retrieval.py lines 24-38: an empty or missing filter gives
no where clause, a single entry is applied directly, and two or more
entries are combined into a conjunction of per-key equalities. -/
def buildWhereFilter : List (String × String) → Option WhereFilter
  | [] => none
  | [(k, v)] => some (WhereFilter.eq k v)
  | kvs => some (WhereFilter.and kvs)

/-- Semantics of a single equality constraint at the document-store
boundary (spec section 6): the document metadata must bind the key to
exactly the required value. -/
def matchesEq (meta : Metadata) (k v : String) : Bool :=
  List.lookup k meta == some v

/-- Semantics of an optional where filter at the document-store boundary:
no filter matches everything, an equality constraint is checked directly,
and a conjunction requires every listed equality to hold. -/
def matchesWhere (meta : Metadata) : Option WhereFilter → Bool
  | none => true
  | some (WhereFilter.eq k v) => matchesEq meta k v
  | some (WhereFilter.and kvs) => kvs.all fun kv => matchesEq meta kv.1 kv.2

/-- The store-side query: restrict the ranked rows to those matching the
where filter and return at most the requested number of results.  Models
`collection.query` behind `query_collection` in
src/utils/chromadb_utils.py. -/
def queryCollection (rows : List StoredRow) (w : Option WhereFilter) (n : Nat) :
    List StoredRow :=
  (rows.filter fun r => matchesWhere r.metadata w).take n

/-- Per-collection retrieval, from `retrieve_documents` in
src/core/retrieval.py: query the store with the converted filter and wrap
each returned triple as a scored document with relevance `1 - distance`. -/
def retrieve_documents (rows : List StoredRow) (metadataFilter : List (String × String))
    (nResults : Nat) : List ScoredDoc :=
  (queryCollection rows (buildWhereFilter metadataFilter) nResults).map fun r =>
    { content := r.content
      metadata := r.metadata
      distance := r.distance
      relevance := 1 - r.distance }

/-- Comparison used when sorting merged results: a document sorts no
later than another when its relevance is at least as large. -/
def docLE (a b : ScoredDoc) : Prop := b.relevance ≤ a.relevance

instance : DecidableRel docLE :=
  fun a b => inferInstanceAs (Decidable (b.relevance ≤ a.relevance))

instance : IsTotal ScoredDoc docLE := ⟨fun a b => le_total b.relevance a.relevance⟩

instance : IsTrans ScoredDoc docLE := ⟨fun _ _ _ hab hbc => le_trans hbc hab⟩

/-- Strict version of `docLE`, used to state uniqueness of the sorted
order when all relevance scores are distinct. -/
def docLT (a b : ScoredDoc) : Prop := b.relevance < a.relevance

/-- The merge-phase sort, from `all_results.sort(key=..., reverse=True)`
in src/core/retrieval.py line 110 and
src/agents/multi_agent_system_no_tools.py line 201: a stable sort by
descending relevance, modelled by stable insertion sort. -/
def sortByRelevance (l : List ScoredDoc) : List ScoredDoc :=
  List.insertionSort docLE l

/-- A document store for a fixed query: every collection name yields
either its ranked rows or a store-level error (missing collection,
store unavailable). -/
abbrev Store := String → Except String (List StoredRow)

/-- Cross-collection merge, from `multi_collection_search` in
src/core/retrieval.py lines 85-112: retrieve from each collection in
order, letting an erroring collection contribute no documents, then
concatenate and sort by descending relevance.  No global truncation is
applied here. -/
def multi_collection_search (store : Store) (collections : List String)
    (metadataFilter : List (String × String)) (nResultsPerCollection : Nat) :
    List ScoredDoc :=
  sortByRelevance <| collections.flatMap fun name =>
    match store name with
    | Except.ok rows => retrieve_documents rows metadataFilter nResultsPerCollection
    | Except.error _ => []

/-- The collection registry from src/config/collections.py lines 4-10:
name and description of each of the five collections. -/
def COLLECTIONS : List (String × String) :=
  [("ib_general", "General IBDP programme information"),
   ("ia_guides", "Internal Assessment guides by subject"),
   ("ia_examples", "Example IAs with scores and feedback"),
   ("mark_schemes", "Mark schemes for past papers"),
   ("syllabus", "Subject syllabi and curriculum guides")]

/-- Document type to collection mapping from src/config/collections.py
lines 22-28. -/
def DOC_TYPE_TO_COLLECTION : List (String × String) :=
  [("ia_guide", "ia_guides"),
   ("ia_example", "ia_examples"),
   ("mark_scheme", "mark_schemes"),
   ("syllabus", "syllabus"),
   ("general_info", "ib_general")]

/-- The collection router table from
src/agents/multi_agent_system_no_tools.py lines 172-177. -/
def routeCollections (queryType : String) : List String :=
  if queryType = "ia_feedback" then ["ia_guides", "ia_examples"]
  else if queryType = "exam_question" then ["mark_schemes", "general_info"]
  else ["ib_general", "syllabus"]

/-- A query classification as consumed by the router.  The Python code
reads it from a dict with `classification.get`, so the query type and the
optional attributes may be absent; search terms are token lists. -/
structure Classification where
  queryType : Option String
  subject : Option String
  level : Option String
  searchTerms : List (List Char)
  deriving DecidableEq, Repr

/-- Routing of a full classification, from
`classification.get("query_type", "general_info")` followed by the router
table (src/agents/multi_agent_system_no_tools.py lines 169-177). -/
def routeOfClassification (c : Classification) : List String :=
  routeCollections (c.queryType.getD "general_info")

/-- One optional attribute of a metadata filter: included only when the
value is present and non-empty, mirroring Python truthiness in the filter
building code. -/
def optEntry (k : String) : Option String → List (String × String)
  | some s => if s = "" then [] else [(k, s)]
  | none => []

/-- Metadata filter built by the agent from a classification
(src/agents/multi_agent_system_no_tools.py lines 162-167): subject and
level only. -/
def agentMetadataFilter (c : Classification) : List (String × String) :=
  optEntry "subject" c.subject ++ optEntry "level" c.level

/-- Content truncation used by both formatters
(src/tools/context_retriever.py lines 76-79 and
src/agents/multi_agent_system_no_tools.py lines 215-217): content longer
than 500 characters is cut to its first 500 characters with an ellipsis
marker appended; shorter content is left unchanged. -/
def truncateContent (content : List Char) : List Char :=
  if 500 < content.length then content.take 500 ++ "...".data else content

/-- Basename extraction used for the provenance line: the part of the
source path after the last slash. -/
def basename (s : String) : String :=
  String.mk ((List.splitOn '/' s.data).getLastD [])

/-- A provenance line rendered only when the metadata value is present
and non-empty. -/
def metaLine (label : String) : Option String → String
  | some s => if s = "" then "" else label ++ s ++ "\n"
  | none => ""

/-- Two-decimal rendering of a relevance score.  This models the external
float formatting used by the Python f-string over exact rationals. -/
def formatTwoDecimals (q : ℚ) : String :=
  let c : Int := round (q * 100)
  let a := c.natAbs
  (if c < 0 then "-" else "")
    ++ toString (a / 100) ++ "."
    ++ (if a % 100 < 10 then "0" ++ toString (a % 100) else toString (a % 100))

/-- One rendered document entry of the agent formatter
(src/agents/multi_agent_system_no_tools.py lines 205-220). -/
def agentRenderDoc (i : Nat) (d : ScoredDoc) : String :=
  "\n[Document " ++ toString (i + 1) ++ "]\n"
    ++ (match List.lookup "source" d.metadata with
        | some s => if s = "" then "" else "Source: " ++ basename s ++ "\n"
        | none => "")
    ++ metaLine "Subject: " (List.lookup "subject" d.metadata)
    ++ "Content: " ++ String.mk (truncateContent d.content) ++ "\n"
    ++ "Relevance: " ++ formatTwoDecimals d.relevance ++ "\n"

/-- The concatenation of per-collection results gathered by the agent's
retrieval loop (src/agents/multi_agent_system_no_tools.py lines 180-194):
an erroring collection contributes no documents. -/
def agentAllResults (store : Store) (c : Classification) : List ScoredDoc :=
  (routeOfClassification c).flatMap fun name =>
    match store name with
    | Except.ok rows => retrieve_documents rows (agentMetadataFilter c) 3
    | Except.error _ => []

/-- The documents the agent formatter actually renders: the merged
results sorted by descending relevance, truncated to the top five
(src/agents/multi_agent_system_no_tools.py lines 201-205). -/
def agentTopDocs (store : Store) (c : Classification) : List ScoredDoc :=
  (sortByRelevance (agentAllResults store c)).take 5

/-- The agent's context retrieval
(src/agents/multi_agent_system_no_tools.py lines 158-222): the sentinel
string when nothing was retrieved, otherwise the rendering of the top
five merged documents. -/
def agentRetrieveContext (store : Store) (c : Classification) : String :=
  if (agentAllResults store c).isEmpty then "No relevant documents found."
  else String.join ((agentTopDocs store c).enum.map fun p => agentRenderDoc p.1 p.2)

/-- Python truthiness of an optional string argument: present and
non-empty. -/
def truthy : Option String → Bool
  | some s => !(s = "")
  | none => false

/-- Metadata filter built by the retrieve_context tool
(src/tools/context_retriever.py lines 24-30): subject, level and document
type, each included only when truthy. -/
def toolMetadataFilter (docType subject level : Option String) :
    List (String × String) :=
  optEntry "subject" subject ++ optEntry "level" level ++ optEntry "doc_type" docType

/-- The list of all collection names searched by the tool's
multi-collection path: the values of the document-type mapping. -/
def toolAllCollections : List String :=
  DOC_TYPE_TO_COLLECTION.map Prod.snd

/-- Result selection of the retrieve_context tool
(src/tools/context_retriever.py lines 32-52): a known truthy document
type selects its single collection (and a store failure there
propagates), any other case searches all collections with two results
per collection. -/
def toolResults (store : Store) (docType subject level : Option String)
    (nResults : Nat) : Except String (List ScoredDoc) :=
  let mf := toolMetadataFilter docType subject level
  if truthy docType then
    match List.lookup (docType.getD "") DOC_TYPE_TO_COLLECTION with
    | some collectionName =>
      match store collectionName with
      | Except.ok rows => Except.ok (retrieve_documents rows mf nResults)
      | Except.error e => Except.error e
    | none => Except.ok (multi_collection_search store toolAllCollections mf 2)
  else Except.ok (multi_collection_search store toolAllCollections mf 2)

/-- One rendered document entry of the tool formatter
(src/tools/context_retriever.py lines 60-82). -/
def toolRenderDoc (i : Nat) (d : ScoredDoc) : String :=
  "[Document " ++ toString (i + 1) ++ "]\n"
    ++ (match List.lookup "source" d.metadata with
        | some s => if s = "" then "" else "Source: " ++ basename s ++ "\n"
        | none => "")
    ++ metaLine "Subject: " (List.lookup "subject" d.metadata)
    ++ metaLine "Section: " (List.lookup "section" d.metadata)
    ++ "Content: " ++ String.mk (truncateContent d.content) ++ "\n"
    ++ "Relevance: " ++ formatTwoDecimals d.relevance ++ "\n\n"

/-- The public retrieve_context tool (src/tools/context_retriever.py
lines 9-84): retrieval followed by formatting, with a fixed sentinel for
an empty result set.  A store failure on the single-collection path is
an uncaught tool error. -/
def retrieve_context (store : Store) (docType subject level : Option String)
    (nResults : Nat) : Except String String :=
  match toolResults store docType subject level nResults with
  | Except.error e => Except.error e
  | Except.ok results =>
    Except.ok <|
      if results.isEmpty then "No relevant documents found for the query."
      else "RELEVANT CONTEXT:\n\n"
        ++ String.join (results.enum.map fun p => toolRenderDoc p.1 p.2)

/-- Lowercasing of a raw query, modelling Python str.lower over the
character list. -/
def lowerChars (q : List Char) : List Char :=
  q.map Char.toLower

/-- Substring containment, modelling the Python `in` operator on
strings: the pattern occurs as a contiguous run inside the text. -/
def containsSub : List Char → List Char → Bool
  | [], pat => pat.isEmpty
  | h :: t, pat => pat.isPrefixOf (h :: t) || containsSub t pat

/-- Whitespace tokenisation, modelling Python str.split with no
arguments: split on whitespace runs and drop empty tokens. -/
def pySplit (q : List Char) : List (List Char) :=
  (q.splitOnP fun ch => ch.isWhitespace).filter fun t => !t.isEmpty

/-- The keyword fallback classifier, from `_fallback_classification` in
src/agents/multi_agent_system_no_tools.py lines 237-269: keyword tables
decide the query type, the subject and the level over the lowercased
query, and the search terms are the first five whitespace tokens of the
raw query. -/
def fallback_classification (query : List Char) : Classification :=
  let ql := lowerChars query
  let base : Classification :=
    { queryType := some "general_info"
      subject := none
      level := none
      searchTerms := (pySplit query).take 5 }
  let c1 :=
    if ["ia", "internal assessment"].any (fun t => containsSub ql t.data) then
      { base with queryType := some "ia_feedback" }
    else if ["exam", "question", "paper", "solve"].any (fun t => containsSub ql t.data) then
      { base with queryType := some "exam_question" }
    else base
  let c2 :=
    if containsSub ql "math".data then
      if containsSub ql "aa".data || containsSub ql "analysis".data then
        { c1 with subject := some "Mathematics AA" }
      else if containsSub ql "ai".data || containsSub ql "applications".data then
        { c1 with subject := some "Mathematics AI" }
      else { c1 with subject := some "Mathematics AA" }
    else c1
  if containsSub ql "hl".data || containsSub ql "higher level".data then
    { c2 with level := some "HL" }
  else if containsSub ql "sl".data || containsSub ql "standard level".data then
    { c2 with level := some "SL" }
  else c2

/-- A sample store with three collections of two rows each, used to
evaluate the merger on concrete data. -/
def sampleThreeCollectionStore : Store := fun name =>
  if name = "alpha" then
    Except.ok [{ content := ['a'], metadata := [], distance := 0 },
               { content := ['b'], metadata := [], distance := 3 }]
  else if name = "beta" then
    Except.ok [{ content := ['c'], metadata := [], distance := 2 },
               { content := ['d'], metadata := [], distance := 5 }]
  else if name = "gamma" then
    Except.ok [{ content := ['e'], metadata := [], distance := 4 },
               { content := ['f'], metadata := [], distance := 6 }]
  else Except.error "missing collection"

/-- A store in which every collection query fails. -/
def failingStore : Store := fun _ => Except.error "store unavailable"

/-- A sample store whose only existing collection holds one document of
document type general_info. -/
def sampleTypedStore : Store := fun name =>
  if name = "ib_general" then
    Except.ok [{ content := ['g'], metadata := [("doc_type", "general_info")], distance := 0 }]
  else Except.error "missing collection"

/-- The two-or-more-entries case of the filter conversion reduces to the
conjunction constructor. -/
theorem buildWhereFilter_cons2 (a b : String × String) (t : List (String × String)) :
    buildWhereFilter (a :: b :: t) = some (WhereFilter.and (a :: b :: t)) := rfl

/-- Every document returned by the per-collection retriever satisfies
every key/value entry of the metadata filter it was called with. -/
theorem mem_retrieve_matchesAll {rows : List StoredRow} {mf : List (String × String)}
    {n : Nat} {d : ScoredDoc} (hd : d ∈ retrieve_documents rows mf n) :
    ∀ kv ∈ mf, List.lookup kv.1 d.metadata = some kv.2 := by
  unfold retrieve_documents queryCollection at hd
  obtain ⟨r, hr, rfl⟩ := List.mem_map.mp hd
  have hr2 : r ∈ rows.filter fun row => matchesWhere row.metadata (buildWhereFilter mf) :=
    List.take_subset _ _ hr
  have hmatch := (List.mem_filter.mp hr2).2
  intro kv hkv
  cases mf with
  | nil => exact absurd hkv (List.not_mem_nil kv)
  | cons a t =>
    obtain ⟨k, v⟩ := a
    cases t with
    | nil =>
      simp only [List.mem_singleton] at hkv
      subst hkv
      simpa [buildWhereFilter, matchesWhere, matchesEq] using hmatch
    | cons b t2 =>
      rw [buildWhereFilter_cons2] at hmatch
      simp only [matchesWhere, List.all_eq_true] at hmatch
      have h2 := hmatch kv hkv
      simpa [matchesEq] using h2

/-- Every document in the merged output originates from a collection
whose retrieval succeeded. -/
theorem mem_multi_collection_search {store : Store} {cs : List String}
    {mf : List (String × String)} {n : Nat} {d : ScoredDoc}
    (h : d ∈ multi_collection_search store cs mf n) :
    ∃ name ∈ cs, ∃ rows, store name = Except.ok rows ∧ d ∈ retrieve_documents rows mf n := by
  unfold multi_collection_search sortByRelevance at h
  have h2 := (List.perm_insertionSort docLE _).subset h
  obtain ⟨name, hname, hd⟩ := List.mem_flatMap.mp h2
  cases hst : store name with
  | ok rows => exact ⟨name, hname, rows, hst, by rwa [hst] at hd⟩
  | error e => rw [hst] at hd; simp at hd

/-- Conversely, every document retrieved from a successfully queried
collection appears in the merged output. -/
theorem mem_multi_collection_search_of_ok {store : Store} {cs : List String}
    {mf : List (String × String)} {n : Nat} {name : String} (hname : name ∈ cs)
    {rows : List StoredRow} (hst : store name = Except.ok rows) {d : ScoredDoc}
    (hd : d ∈ retrieve_documents rows mf n) :
    d ∈ multi_collection_search store cs mf n := by
  unfold multi_collection_search sortByRelevance
  refine (List.perm_insertionSort docLE _).mem_iff.mpr ?_
  refine List.mem_flatMap.mpr ⟨name, hname, ?_⟩
  rw [hst]
  exact hd

/-- Inserting a document into a list keeps the subsequence of documents
with any fixed relevance score intact, apart from the inserted document
being put in front of it exactly when it has that score. -/
theorem filter_orderedInsert (x : ScoredDoc) (r : ℚ) (l : List ScoredDoc) :
    (List.orderedInsert docLE x l).filter (fun d => decide (d.relevance = r))
      = if x.relevance = r
        then x :: l.filter (fun d => decide (d.relevance = r))
        else l.filter (fun d => decide (d.relevance = r)) := by
  induction l with
  | nil =>
    simp only [List.orderedInsert, List.filter]
    by_cases hx : x.relevance = r <;> simp [hx]
  | cons y ys ih =>
    by_cases hxy : docLE x y
    · rw [List.orderedInsert, if_pos hxy]
      by_cases hx : x.relevance = r <;> simp [List.filter_cons, hx]
    · rw [List.orderedInsert, if_neg hxy]
      have hlt : x.relevance < y.relevance := not_le.mp hxy
      by_cases hy : y.relevance = r
      · by_cases hx : x.relevance = r
        · exact absurd (hx.trans hy.symm) (ne_of_lt hlt)
        · simp [List.filter_cons, hy, hx, ih]
      · by_cases hx : x.relevance = r <;> simp [List.filter_cons, hy, hx, ih]

/-- Stability of the merge-phase sort: for every relevance score, the
documents carrying exactly that score appear in the sorted output in
their original order. -/
theorem filter_sortByRelevance (r : ℚ) (l : List ScoredDoc) :
    (sortByRelevance l).filter (fun d => decide (d.relevance = r))
      = l.filter (fun d => decide (d.relevance = r)) := by
  induction l with
  | nil => rfl
  | cons x xs ih =>
    unfold sortByRelevance at *
    simp only [List.insertionSort]
    rw [filter_orderedInsert]
    by_cases hx : x.relevance = r <;> simp [List.filter_cons, hx, ih]

/-- The sorted output lists relevance scores in descending order. -/
theorem sorted_relevance_map (l : List ScoredDoc) :
    List.Sorted (fun x y : ℚ => y ≤ x) ((sortByRelevance l).map ScoredDoc.relevance) :=
  List.Pairwise.map ScoredDoc.relevance (fun _ _ h => h)
    (List.sorted_insertionSort docLE l)

/-- Sorting permutations of the same document multiset yields the same
descending sequence of relevance scores. -/
theorem relevance_map_sort_eq {l1 l2 : List ScoredDoc} (h : l1.Perm l2) :
    (sortByRelevance l1).map ScoredDoc.relevance
      = (sortByRelevance l2).map ScoredDoc.relevance := by
  have p : (sortByRelevance l1).Perm (sortByRelevance l2) :=
    (List.perm_insertionSort docLE l1).trans
      (h.trans (List.perm_insertionSort docLE l2).symm)
  haveI : IsAntisymm ℚ (fun x y : ℚ => y ≤ x) := ⟨fun _ _ h1 h2 => le_antisymm h2 h1⟩
  exact List.eq_of_perm_of_sorted (p.map ScoredDoc.relevance)
    (sorted_relevance_map l1) (sorted_relevance_map l2)

/-- With pairwise distinct relevance scores the sort is strictly
descending. -/
theorem strict_sorted_of_nodup {l : List ScoredDoc}
    (hnd : (l.map ScoredDoc.relevance).Nodup) :
    List.Sorted docLT (sortByRelevance l) := by
  have hnd2 : ((sortByRelevance l).map ScoredDoc.relevance).Nodup :=
    (((List.perm_insertionSort docLE l).map ScoredDoc.relevance).symm).nodup hnd
  have hne : List.Pairwise (fun a b : ScoredDoc => a.relevance ≠ b.relevance)
      (sortByRelevance l) := List.pairwise_map.mp hnd2
  have hle : List.Pairwise docLE (sortByRelevance l) :=
    List.sorted_insertionSort docLE l
  exact (hle.and hne).imp fun h => h.1.lt_of_ne fun e => h.2 e.symm

/-- Sorting permutations of the same document multiset with pairwise
distinct relevance scores yields identical lists. -/
theorem sortByRelevance_eq_of_nodup {l1 l2 : List ScoredDoc} (h : l1.Perm l2)
    (hnd : (l1.map ScoredDoc.relevance).Nodup) :
    sortByRelevance l1 = sortByRelevance l2 := by
  have p : (sortByRelevance l1).Perm (sortByRelevance l2) :=
    (List.perm_insertionSort docLE l1).trans
      (h.trans (List.perm_insertionSort docLE l2).symm)
  have hnd2 : (l2.map ScoredDoc.relevance).Nodup := (h.map ScoredDoc.relevance).nodup hnd
  haveI : IsAntisymm ScoredDoc docLT :=
    ⟨fun _ _ h1 h2 => absurd (lt_trans h1 h2) (lt_irrefl _)⟩
  exact List.eq_of_perm_of_sorted p (strict_sorted_of_nodup hnd)
    (strict_sorted_of_nodup hnd2)

/-- Replacing a failing collection by an empty successful one does not
change the merged output. -/
theorem multi_replace_failed (store : Store) (cs : List String)
    (mf : List (String × String)) (n : Nat) (c : String) (e : String)
    (he : store c = Except.error e) :
    multi_collection_search store cs mf n
      = multi_collection_search
          (fun x => if x = c then Except.ok [] else store x) cs mf n := by
  unfold multi_collection_search
  congr 1
  induction cs with
  | nil => rfl
  | cons name tl ih =>
    rw [List.flatMap_cons, List.flatMap_cons, ih]
    congr 1
    by_cases hn : name = c
    · subst hn
      rw [he]
      simp [retrieve_documents, queryCollection]
    · simp [hn]

/-- A collection traversal over failing collections gathers nothing. -/
theorem flatMap_all_failed (store : Store) (mf : List (String × String)) (n : Nat) :
    ∀ ls : List String, (∀ name ∈ ls, ∃ e, store name = Except.error e) →
      (ls.flatMap fun name =>
        match store name with
        | Except.ok rows => retrieve_documents rows mf n
        | Except.error _ => []) = [] := by
  intro ls
  induction ls with
  | nil => intro _; rfl
  | cons name tl ih =>
    intro h
    rw [List.flatMap_cons]
    obtain ⟨e, he⟩ := h name (List.mem_cons_self name tl)
    rw [he, ih fun x hx => h x (List.mem_cons_of_mem name hx)]
    rfl

/-- When every queried collection fails, the merged output is empty. -/
theorem multi_all_failed (store : Store) (cs : List String)
    (mf : List (String × String)) (n : Nat)
    (h : ∀ name ∈ cs, ∃ e, store name = Except.error e) :
    multi_collection_search store cs mf n = [] := by
  unfold multi_collection_search
  rw [flatMap_all_failed store mf n cs h]
  rfl

/-- When every routed collection fails, the agent gathers no results. -/
theorem agentAllResults_all_failed (store : Store) (c : Classification)
    (h : ∀ name ∈ routeOfClassification c, ∃ e, store name = Except.error e) :
    agentAllResults store c = [] := by
  unfold agentAllResults
  exact flatMap_all_failed store (agentMetadataFilter c) 3 (routeOfClassification c) h

/-- C1: the collection router is a total function on classifications:
an ia_feedback query type routes to exactly [ia_guides, ia_examples] in
that order, an exam_question query type routes to [mark_schemes,
general_info], and every other query type, including unknown or missing
ones, routes to the same non-empty list as general_info, namely
[ib_general, syllabus]; the routed list is never empty. -/
theorem C1_router_total (c : Classification) :
    routeOfClassification c ≠ []
    ∧ (c.queryType = some "ia_feedback" →
        routeOfClassification c = ["ia_guides", "ia_examples"])
    ∧ (c.queryType = some "exam_question" →
        routeOfClassification c = ["mark_schemes", "general_info"])
    ∧ (c.queryType ≠ some "ia_feedback" → c.queryType ≠ some "exam_question" →
        routeOfClassification c = routeCollections "general_info"
        ∧ routeOfClassification c = ["ib_general", "syllabus"]) := by
  unfold routeOfClassification routeCollections
  cases hq : c.queryType with
  | none => simp
  | some s =>
    simp only [Option.getD_some]
    by_cases h1 : s = "ia_feedback"
    · subst h1; simp
    · by_cases h2 : s = "exam_question"
      · subst h2; simp
      · simp [h1, h2]

/-- Witness for C1 at concrete inputs: an unknown query type and a
missing query type both route to the general_info row. -/
theorem C1_router_total_witness :
    routeOfClassification
        { queryType := some "recipe", subject := none, level := none, searchTerms := [] }
      = routeCollections "general_info"
    ∧ routeOfClassification
        { queryType := none, subject := none, level := none, searchTerms := [] }
      = ["ib_general", "syllabus"] :=
  ⟨((C1_router_total _).2.2.2 (by decide) (by decide)).1,
   ((C1_router_total _).2.2.2 (by decide) (by decide)).2⟩

/-- C2: evaluation of the router at the exam_question row.  The router
emits the name general_info there, which is not one of the five
registered collection names; the collection registered for the
general_info document type is ib_general.  This refutes the claim that
every emitted name is a registered collection. -/
theorem C2_unregistered_collection_emitted :
    routeCollections "exam_question" = ["mark_schemes", "general_info"]
    ∧ "general_info" ∈ routeCollections "exam_question"
    ∧ "general_info" ∉ COLLECTIONS.map Prod.fst
    ∧ List.lookup "general_info" DOC_TYPE_TO_COLLECTION = some "ib_general"
    ∧ "ib_general" ∈ COLLECTIONS.map Prod.fst := by decide

/-- C7: every scored document produced by the per-collection retriever
has relevance exactly one minus its distance, for every distance value
the store reports, with no clamping. -/
theorem C7_relevance_round_trip (rows : List StoredRow) (mf : List (String × String))
    (n : Nat) (d : ScoredDoc) (hd : d ∈ retrieve_documents rows mf n) :
    d.relevance = 1 - d.distance := by
  unfold retrieve_documents at hd
  obtain ⟨r, _, rfl⟩ := List.mem_map.mp hd
  rfl

/-- Witness for C7 at a store row with out-of-range distance two: the
produced document has relevance one minus two, outside the unit
interval and not clamped. -/
theorem C7_relevance_round_trip_witness :
    ({ content := ['x'], metadata := [], distance := 2, relevance := 1 - 2 } :
        ScoredDoc).relevance
      = 1 - ({ content := ['x'], metadata := [], distance := 2, relevance := 1 - 2 } :
        ScoredDoc).distance :=
  C7_relevance_round_trip [{ content := ['x'], metadata := [], distance := 2 }] [] 5 _
    (by decide)

/-- C8: the context formatter's content truncation: content longer than
the 500-character budget renders as exactly its first 500 characters
followed by the three-character truncation marker, and content within
the budget renders unmodified with no marker. -/
theorem C8_content_truncation (content : List Char) :
    (500 < content.length →
      truncateContent content = content.take 500 ++ "...".data
      ∧ (truncateContent content).length = 503)
    ∧ (content.length ≤ 500 → truncateContent content = content) := by
  constructor
  · intro h
    unfold truncateContent
    rw [if_pos h]
    refine ⟨rfl, ?_⟩
    rw [List.length_append, List.length_take]
    have hmin : min 500 content.length = 500 := min_eq_left (le_of_lt h)
    rw [hmin]
    rfl
  · intro h
    unfold truncateContent
    rw [if_neg (not_lt.mpr h)]

set_option maxRecDepth 10000 in
/-- Witness for C8: a 600-character content renders as its first 500
characters plus the marker, and a 400-character content renders
unmodified. -/
theorem C8_content_truncation_witness :
    truncateContent (List.replicate 600 'a')
        = (List.replicate 600 'a').take 500 ++ "...".data
    ∧ truncateContent (List.replicate 400 'a') = List.replicate 400 'a' :=
  ⟨((C8_content_truncation _).1 (by decide)).1,
   (C8_content_truncation _).2 (by decide)⟩

/-- C3 counterexample: with three collections contributing two documents
each, the cross-collection merger returns six documents, exceeding the
claimed global top-five truncation. -/
theorem C3_counterexample :
    5 < (multi_collection_search sampleThreeCollectionStore
        ["alpha", "beta", "gamma"] [] 2).length := by decide

/-- C3 amended: the cross-collection merger applies no global
truncation: its output length is exactly the sum of the per-collection
contributions (bounded only by the per-collection cap times the number
of collections); the global top-five truncation happens only in the
agent formatter, whose rendered document list never exceeds five
entries. -/
theorem C3_no_global_truncation (store : Store) (cs : List String)
    (mf : List (String × String)) (n : Nat) (c : Classification) :
    (multi_collection_search store cs mf n).length
      = (cs.map fun name =>
          match store name with
          | Except.ok rows => (retrieve_documents rows mf n).length
          | Except.error _ => 0).sum
    ∧ (agentTopDocs store c).length ≤ 5 := by
  constructor
  · unfold multi_collection_search sortByRelevance
    rw [(List.perm_insertionSort docLE _).length_eq, List.length_flatMap]
    congr 1
    apply List.map_congr_left
    intro name _
    simp only [Function.comp_apply]
    cases store name <;> rfl
  · unfold agentTopDocs
    exact List.length_take_le 5 _

/-- C4: the merge-phase sort orders the concatenated per-collection
results by descending relevance with a stable sort, so merging the same
per-collection data in either collection order yields a permutation
with the identical descending relevance sequence, identical top-five
relevance sequence, and, when all relevance scores are distinct,
identical output lists. -/
theorem C4_merge_order_invariance (a b : List ScoredDoc) :
    List.Sorted docLE (sortByRelevance (a ++ b))
    ∧ (∀ r : ℚ, (sortByRelevance (a ++ b)).filter (fun d => decide (d.relevance = r))
        = (a ++ b).filter (fun d => decide (d.relevance = r)))
    ∧ (sortByRelevance (a ++ b)).Perm (sortByRelevance (b ++ a))
    ∧ (sortByRelevance (a ++ b)).map ScoredDoc.relevance
        = (sortByRelevance (b ++ a)).map ScoredDoc.relevance
    ∧ ((sortByRelevance (a ++ b)).take 5).map ScoredDoc.relevance
        = ((sortByRelevance (b ++ a)).take 5).map ScoredDoc.relevance
    ∧ (((a ++ b).map ScoredDoc.relevance).Nodup →
        sortByRelevance (a ++ b) = sortByRelevance (b ++ a)) := by
  refine ⟨List.sorted_insertionSort docLE _,
    fun r => filter_sortByRelevance r _,
    (List.perm_insertionSort docLE _).trans
      (List.perm_append_comm.trans (List.perm_insertionSort docLE _).symm),
    relevance_map_sort_eq List.perm_append_comm, ?_,
    fun h => sortByRelevance_eq_of_nodup List.perm_append_comm h⟩
  rw [List.map_take, List.map_take, relevance_map_sort_eq List.perm_append_comm]

/-- Witness for C4 at concrete document lists with pairwise distinct
relevance scores: the two merge orders produce identical sorted
output. -/
theorem C4_merge_order_invariance_witness :
    sortByRelevance
        ([{ content := ['x'], metadata := [], distance := 0, relevance := 1 },
          { content := ['y'], metadata := [], distance := 2, relevance := -1 }]
          ++ [{ content := ['z'], metadata := [], distance := 1, relevance := 0 }])
      = sortByRelevance
          ([{ content := ['z'], metadata := [], distance := 1, relevance := 0 }]
            ++ [{ content := ['x'], metadata := [], distance := 0, relevance := 1 },
                { content := ['y'], metadata := [], distance := 2, relevance := -1 }]) :=
  (C4_merge_order_invariance _ _).2.2.2.2.2 (by decide)

/-- C5: a failing collection is caught and contributes zero documents:
every merged document comes from a successful collection, every
document of a successful collection is merged, a failing collection can
be replaced by an empty one without changing the output, an all-failing
query merges to the empty list, and the agent then reports the
no-relevant-documents sentinel instead of an error. -/
theorem C5_error_isolation (store : Store) (cs : List String)
    (mf : List (String × String)) (n : Nat) :
    (∀ d ∈ multi_collection_search store cs mf n,
      ∃ name ∈ cs, ∃ rows, store name = Except.ok rows
        ∧ d ∈ retrieve_documents rows mf n)
    ∧ (∀ name ∈ cs, ∀ rows, store name = Except.ok rows →
        ∀ d ∈ retrieve_documents rows mf n, d ∈ multi_collection_search store cs mf n)
    ∧ (∀ c e, store c = Except.error e →
        multi_collection_search store cs mf n
          = multi_collection_search
              (fun x => if x = c then Except.ok [] else store x) cs mf n)
    ∧ ((∀ name ∈ cs, ∃ e, store name = Except.error e) →
        multi_collection_search store cs mf n = [])
    ∧ (∀ c : Classification,
        (∀ name ∈ routeOfClassification c, ∃ e, store name = Except.error e) →
        agentRetrieveContext store c = "No relevant documents found.") := by
  refine ⟨fun d hd => mem_multi_collection_search hd,
    fun name hname rows hst d hd => mem_multi_collection_search_of_ok hname hst hd,
    fun c e he => multi_replace_failed store cs mf n c e he,
    multi_all_failed store cs mf n, ?_⟩
  intro c h
  unfold agentRetrieveContext
  rw [agentAllResults_all_failed store c h]
  rfl

/-- Witness for C5: with every collection failing, the agent returns
the sentinel string rather than an error. -/
theorem C5_error_isolation_witness :
    agentRetrieveContext failingStore
        { queryType := some "ia_feedback", subject := none, level := none,
          searchTerms := [] }
      = "No relevant documents found." :=
  (C5_error_isolation failingStore [] [] 0).2.2.2.2 _
    fun _ _ => ⟨"store unavailable", rfl⟩

/-- C6: a metadata filter with two or more entries is sent to the store
as the conjunction of per-key equality constraints, whose semantics is
the logical AND of all entries, so a returned document matches every
key/value pair and a document violating any entry is never returned; a
single-entry filter is sent as one equality constraint applied
directly. -/
theorem C6_filter_conjunction (mf : List (String × String)) (hmf : 2 ≤ mf.length) :
    buildWhereFilter mf = some (WhereFilter.and mf)
    ∧ (∀ meta : Metadata, matchesWhere meta (buildWhereFilter mf)
        = mf.all fun kv => matchesEq meta kv.1 kv.2)
    ∧ (∀ rows n d, d ∈ retrieve_documents rows mf n →
        ∀ kv ∈ mf, List.lookup kv.1 d.metadata = some kv.2)
    ∧ (∀ rows n d, (∃ kv ∈ mf, ¬ List.lookup kv.1 d.metadata = some kv.2) →
        d ∉ retrieve_documents rows mf n)
    ∧ (∀ k v, buildWhereFilter [(k, v)] = some (WhereFilter.eq k v)
        ∧ ∀ meta : Metadata, matchesWhere meta (buildWhereFilter [(k, v)])
            = matchesEq meta k v) := by
  cases mf with
  | nil => simp at hmf
  | cons x t =>
    cases t with
    | nil => simp at hmf
    | cons y t2 =>
      refine ⟨buildWhereFilter_cons2 x y t2, fun meta => ?_,
        fun rows n d hd => mem_retrieve_matchesAll hd, ?_,
        fun k v => ⟨rfl, fun meta => rfl⟩⟩
      · rw [buildWhereFilter_cons2]
        rfl
      · rintro rows n d ⟨kv, hkv, hne⟩ hd
        exact hne (mem_retrieve_matchesAll hd kv hkv)

/-- Witness for C6: with the two-entry filter subject plus level, a
document matching only the subject entry is not returned by the
retriever. -/
theorem C6_filter_conjunction_witness :
    ({ content := ['x'], metadata := [("subject", "Math")], distance := 0,
        relevance := 1 - 0 } : ScoredDoc)
      ∉ retrieve_documents [{ content := ['x'], metadata := [("subject", "Math")], distance := 0 }]
          [("subject", "Math"), ("level", "HL")] 5 :=
  (C6_filter_conjunction [("subject", "Math"), ("level", "HL")] (by decide)).2.2.2.1
    _ 5 _ ⟨("level", "HL"), by decide, by decide⟩

/-- The query type computed by the fallback classifier depends only on
the two query-type keyword tables. -/
theorem fallback_queryType (q : List Char) :
    (fallback_classification q).queryType
      = some (if (containsSub (lowerChars q) "ia".data
            || containsSub (lowerChars q) "internal assessment".data) then "ia_feedback"
          else if (containsSub (lowerChars q) "exam".data
            || (containsSub (lowerChars q) "question".data
            || (containsSub (lowerChars q) "paper".data
            || containsSub (lowerChars q) "solve".data))) then "exam_question"
          else "general_info") := by
  unfold fallback_classification
  simp only [List.any_cons, List.any_nil, Bool.or_false]
  split_ifs <;> rfl

/-- The search terms computed by the fallback classifier are always the
first five whitespace tokens of the raw query. -/
theorem fallback_searchTerms (q : List Char) :
    (fallback_classification q).searchTerms = (pySplit q).take 5 := by
  unfold fallback_classification
  simp only [List.any_cons, List.any_nil, Bool.or_false]
  split_ifs <;> rfl

/-- Without the math keyword the fallback classifier leaves the subject
unset. -/
theorem fallback_subject_default (q : List Char)
    (hmath : containsSub (lowerChars q) "math".data = false) :
    (fallback_classification q).subject = none := by
  unfold fallback_classification
  simp only [List.any_cons, List.any_nil, Bool.or_false]
  split_ifs <;> simp_all

/-- Without the level keywords the fallback classifier leaves the level
unset. -/
theorem fallback_level_default (q : List Char)
    (hhl : (containsSub (lowerChars q) "hl".data
      || containsSub (lowerChars q) "higher level".data) = false)
    (hsl : (containsSub (lowerChars q) "sl".data
      || containsSub (lowerChars q) "standard level".data) = false) :
    (fallback_classification q).level = none := by
  unfold fallback_classification
  simp only [List.any_cons, List.any_nil, Bool.or_false]
  split_ifs <;> simp_all

/-- C9: the keyword fallback classifier is total: it always produces
one of the three query types; the query type is ia_feedback when the
lowercased query contains one of the keywords ia or internal
assessment, else exam_question when it contains one of exam, question,
paper or solve, else general_info; the search terms are the first five
whitespace-delimited tokens of the raw query; and when no keyword of
any table matches, the result is general_info with subject and level
unset. -/
theorem C9_fallback_total (q : List Char) :
    ((fallback_classification q).queryType = some "general_info"
      ∨ (fallback_classification q).queryType = some "ia_feedback"
      ∨ (fallback_classification q).queryType = some "exam_question")
    ∧ (fallback_classification q).searchTerms = (pySplit q).take 5
    ∧ ((containsSub (lowerChars q) "ia".data
        || containsSub (lowerChars q) "internal assessment".data) = true →
        (fallback_classification q).queryType = some "ia_feedback")
    ∧ ((containsSub (lowerChars q) "ia".data
        || containsSub (lowerChars q) "internal assessment".data) = false →
        (containsSub (lowerChars q) "exam".data
          || (containsSub (lowerChars q) "question".data
          || (containsSub (lowerChars q) "paper".data
          || containsSub (lowerChars q) "solve".data))) = true →
        (fallback_classification q).queryType = some "exam_question")
    ∧ ((containsSub (lowerChars q) "ia".data
        || containsSub (lowerChars q) "internal assessment".data) = false →
        (containsSub (lowerChars q) "exam".data
          || (containsSub (lowerChars q) "question".data
          || (containsSub (lowerChars q) "paper".data
          || containsSub (lowerChars q) "solve".data))) = false →
        (fallback_classification q).queryType = some "general_info")
    ∧ ((containsSub (lowerChars q) "ia".data
        || containsSub (lowerChars q) "internal assessment".data) = false →
        (containsSub (lowerChars q) "exam".data
          || (containsSub (lowerChars q) "question".data
          || (containsSub (lowerChars q) "paper".data
          || containsSub (lowerChars q) "solve".data))) = false →
        containsSub (lowerChars q) "math".data = false →
        (containsSub (lowerChars q) "hl".data
          || containsSub (lowerChars q) "higher level".data) = false →
        (containsSub (lowerChars q) "sl".data
          || containsSub (lowerChars q) "standard level".data) = false →
        fallback_classification q
          = { queryType := some "general_info", subject := none, level := none,
              searchTerms := (pySplit q).take 5 }) := by
  refine ⟨?_, fallback_searchTerms q, ?_, ?_, ?_, ?_⟩
  · rw [fallback_queryType q]
    split_ifs <;> simp
  · intro h
    simp [fallback_queryType q, h]
  · intro h1 h2
    simp [fallback_queryType q, h1, h2]
  · intro h1 h2
    simp [fallback_queryType q, h1, h2]
  · intro h1 h2 hmath hhl hsl
    have hq : (fallback_classification q).queryType = some "general_info" := by
      simp [fallback_queryType q, h1, h2]
    have hsub := fallback_subject_default q hmath
    have hlev := fallback_level_default q hhl hsl
    have hst := fallback_searchTerms q
    cases hfc : fallback_classification q with
    | mk a b c d =>
      rw [hfc] at hq hsub hlev hst
      simp_all

/-- Witness for C9 at the concrete query hello world, which matches no
keyword: the classifier returns general_info with subject and level
unset and the two tokens as search terms. -/
theorem C9_fallback_total_witness :
    fallback_classification "hello world".data
      = { queryType := some "general_info", subject := none, level := none,
          searchTerms := (pySplit "hello world".data).take 5 } :=
  (C9_fallback_total _).2.2.2.2.2 (by decide) (by decide) (by decide) (by decide)
    (by decide)

/-- C10: with a truthy document type that is not a known document type,
the retrieve_context tool does not fail: it takes the multi-collection
path over all five collections, the unknown document type stays in the
metadata equality filter, every returned document carries exactly that
document type in its metadata, and when nothing matches the tool
returns the fixed sentinel string. -/
theorem C10_unknown_doc_type (store : Store) (dt : String) (subject level : Option String)
    (n : Nat) (hne : dt ≠ "") (hunk : List.lookup dt DOC_TYPE_TO_COLLECTION = none) :
    toolResults store (some dt) subject level n
        = Except.ok (multi_collection_search store toolAllCollections
            (toolMetadataFilter (some dt) subject level) 2)
    ∧ toolAllCollections
        = ["ia_guides", "ia_examples", "mark_schemes", "syllabus", "ib_general"]
    ∧ ("doc_type", dt) ∈ toolMetadataFilter (some dt) subject level
    ∧ (∀ d ∈ multi_collection_search store toolAllCollections
          (toolMetadataFilter (some dt) subject level) 2,
        List.lookup "doc_type" d.metadata = some dt)
    ∧ (multi_collection_search store toolAllCollections
          (toolMetadataFilter (some dt) subject level) 2 = [] →
        retrieve_context store (some dt) subject level n
          = Except.ok "No relevant documents found for the query.") := by
  have h1 : toolResults store (some dt) subject level n
      = Except.ok (multi_collection_search store toolAllCollections
          (toolMetadataFilter (some dt) subject level) 2) := by
    simp [toolResults, truthy, hne, hunk]
  have h3 : ("doc_type", dt) ∈ toolMetadataFilter (some dt) subject level := by
    simp [toolMetadataFilter, optEntry, hne]
  refine ⟨h1, by decide, h3, ?_, ?_⟩
  · intro d hd
    obtain ⟨name, _, rows, hst, hret⟩ := mem_multi_collection_search hd
    exact mem_retrieve_matchesAll hret ("doc_type", dt) h3
  · intro h0
    unfold retrieve_context
    rw [h1, h0]
    rfl

/-- Witness for C10 at the concrete unknown document type weird over a
store whose only document has document type general_info: the tool
returns the sentinel, not an error. -/
theorem C10_unknown_doc_type_witness :
    retrieve_context sampleTypedStore (some "weird") none none 5
      = Except.ok "No relevant documents found for the query." :=
  (C10_unknown_doc_type sampleTypedStore "weird" none none 5 (by decide)
    (by decide)).2.2.2.2 (by decide)

end

end IBGPT
